import Mathlib

/-!
Shallow embedding of the uvw signal handle layer.

The repository source under src is the single header src/uvw/signal.hpp,
which defines the value type SignalEvent and the specialization SignalHandle
on top of the generic Handle and Emitter bases.  Those bases (handle.hpp,
event.hpp) and the native engine (libuv) are not under src; the definitions
below that embed them are marked in their doc comments as modelled from the
specification and follow its words (sections 3, 4.2, 4.3, 4.4, 7).

Addresses are modelled as indices into a world of handle instances, so the
opaque back-pointer stored in a native resource is a natural number index and
the cast performed by the callback bridge is a world lookup.
-/

namespace Uvw

/-- Lifecycle states of a resource handle, following the state machine of the
specification: UNINITIALIZED, INITIALIZED, ACTIVE, STOPPED, CLOSED. -/
inductive HandleState where
  | uninitialized
  | initialized
  | active
  | stopped
  | closed
  deriving DecidableEq, Repr

/-- Model of the native resource uv_signal_t: the armed signal number and the
back-pointer kept in its data field.  The back-pointer holds the address (the
world index) of the owning handle, or none when cleared. -/
structure NativeSignal where
  signum : Int
  data : Option Nat
  deriving DecidableEq, Repr

/-- Embedding of struct SignalEvent (signal.hpp lines 20 to 31): constructed
from an int which is stored in the private const field signum. -/
structure SignalEvent where
  signum : Int
  deriving DecidableEq, Repr

/-- Embedding of SignalEvent::signal (signal.hpp line 27): returns the stored
payload. -/
def SignalEvent.signal (e : SignalEvent) : Int :=
  e.signum

/-- Listeners are identified by a tag; the registry keeps them in subscription
order, duplicates permitted. -/
abbrev ListenerId := Nat

/-- Record of one synchronous listener invocation performed by publish: which
listener ran and the event value it received. -/
structure Invocation where
  listener : ListenerId
  event : SignalEvent
  deriving DecidableEq, Repr

/-- Error taxonomy of the specification, section 7: usage errors are distinct
from native call failures. -/
inductive UvwError where
  | usage
  | native
  deriving DecidableEq, Repr

/-- Embedding of class SignalHandle (signal.hpp lines 45 to 97).  The
lifecycle state and the listener registry come from the generic Handle and
Emitter bases, modelled from the specification since the corresponding
headers are not under src.  The field hid models the address of this instance
(the value of the this pointer), resource the owned uv_signal_t slot. -/
structure SignalHandle where
  hid : Nat
  state : HandleState
  resource : Option NativeSignal
  listeners : List ListenerId
  deriving DecidableEq, Repr

/-- Embedding of SignalHandle::create (signal.hpp lines 59 to 62): a freshly
constructed handle at address hid; no native resource exists yet and the
listener registry is empty. -/
def SignalHandle.create (hid : Nat) : SignalHandle :=
  ⟨hid, .uninitialized, none, []⟩

/-- Modelled from the spec: Handle::initialize of the generic base
(handle.hpp, not under src), as called by SignalHandle::init (signal.hpp
lines 68 to 70).  Section 4.3: init allocates the native resource and
installs the back-pointer, may only be entered once per handle instance,
re-initializing an already initialized handle is a usage error, and on
failure the state remains unchanged.  Section 3: the back-pointer is
established atomically with allocation.  The native allocation itself
(uv_signal_init) is modelled as succeeding.  Returns true in case of success,
false otherwise, as documented in signal.hpp line 66. -/
def SignalHandle.init (h : SignalHandle) : SignalHandle × Bool :=
  match h.state with
  | .uninitialized =>
      ({ h with state := .initialized, resource := some ⟨0, some h.hid⟩ }, true)
  | _ => (h, false)

/-- Embedding of SignalHandle::start (signal.hpp lines 79 to 81), with the
generic invoke primitive and the native uv_signal_start modelled from the
spec (section 4.3 for invoke, section 4.4 for start): with an allocated
resource the call arms the watcher for signum and the handle becomes ACTIVE,
re-arming silently when already ACTIVE; without an allocated resource (before
init or after CLOSED) the operation reports a usage error and changes
nothing. -/
def SignalHandle.start (h : SignalHandle) (signum : Int) : SignalHandle × Option UvwError :=
  match h.resource with
  | some r =>
      ({ h with state := .active, resource := some { r with signum := signum } }, none)
  | none => (h, some .usage)

/-- Embedding of SignalHandle::stop (signal.hpp lines 86 to 88), with invoke
and the native uv_signal_stop modelled from the spec (section 4.4): disarms
the watcher, ACTIVE becomes STOPPED, idempotent when already stopped, a no-op
on a handle that was never armed; without an allocated resource the call
reports a usage error. -/
def SignalHandle.stop (h : SignalHandle) : SignalHandle × Option UvwError :=
  match h.resource with
  | some _ =>
      (if h.state = .active then { h with state := .stopped } else h, none)
  | none => (h, some .usage)

/-- Modelled from the spec: the close and release path of the generic base
(section 4.3): CLOSED is terminal, releases the native resource and clears
the back-pointer; attempting it without an allocated resource is a usage
error. -/
def SignalHandle.close (h : SignalHandle) : SignalHandle × Option UvwError :=
  match h.resource with
  | some _ => ({ h with state := .closed, resource := none }, none)
  | none => (h, some .usage)

/-- Modelled from the spec: Handle::get of the generic base (handle.hpp, not
under src) exposes the underlying native resource to the specialization; by
the invariant of section 3 the resource exists exactly between init and
close, and per section 7 an access outside that window is reported as a usage
error rather than undefined behavior. -/
def SignalHandle.getResource (h : SignalHandle) : Except UvwError NativeSignal :=
  match h.resource with
  | some r => .ok r
  | none => .error .usage

/-- Embedding of SignalHandle::signal (signal.hpp lines 94 to 96): reads the
signum field of the native resource obtained through get. -/
def SignalHandle.signal (h : SignalHandle) : Except UvwError Int :=
  h.getResource.map (fun r => r.signum)

/-- State passing form of the const method SignalHandle::signal: a const
member function returns its result together with the receiver it was called
on, which it cannot modify. -/
def SignalHandle.signalOp (h : SignalHandle) : Except UvwError Int × SignalHandle :=
  (h.signal, h)

/-- Modelled from the spec: Emitter::on of the event layer (event.hpp, not
under src).  Section 4.2 subscribe: appends the listener to the ordered
sequence for its kind; insertion order is invocation order and duplicates are
permitted. -/
def SignalHandle.on (h : SignalHandle) (l : ListenerId) : SignalHandle :=
  { h with listeners := h.listeners ++ [l] }

/-- Modelled from the spec: Emitter::publish of the event layer (event.hpp,
not under src).  Section 4.2: invokes every currently subscribed listener for
the kind, in subscription order, synchronously, on the thread of control of
the caller; the returned list records the invocations in the order they run,
all completed before the call returns. -/
def SignalHandle.publish (h : SignalHandle) (e : SignalEvent) : List Invocation :=
  h.listeners.map (fun l => ⟨l, e⟩)

/-- A world of handle instances; the index of a handle models its address,
so dereferencing a stored back-pointer is a lookup. -/
abbrev World := List SignalHandle

/-- Dereference of the back-pointer performed by the callback bridge: the
cast of handle data to a SignalHandle reference in signal.hpp line 47. -/
def recoverOwner (w : World) (r : NativeSignal) : Option SignalHandle :=
  r.data.bind (fun hid => w.get? hid)

/-- Embedding of SignalHandle::startCallback (signal.hpp lines 46 to 49): the
native callback receives the native resource pointer and the raw signal
number, recovers the owning handle from the back-pointer stored in the
resource, constructs a SignalEvent carrying the number and publishes it. -/
def startCallback (w : World) (r : NativeSignal) (signum : Int) : List Invocation :=
  match recoverOwner w r with
  | some owner => owner.publish ⟨signum⟩
  | none => []

/-- Allocation window of the lifecycle: the states at or beyond INITIALIZED
and before CLOSED. -/
def allocatedIn (s : HandleState) : Bool :=
  match s with
  | .initialized => true
  | .active => true
  | .stopped => true
  | _ => false

/-- Invariant of section 3: the native resource is allocated if and only if
the lifecycle state lies in the allocation window. -/
def SignalHandle.inv (h : SignalHandle) : Bool :=
  h.resource.isSome == allocatedIn h.state

/-- Back-pointer invariant of section 3: while the resource is allocated, its
data field refers to the owning handle instance. -/
def SignalHandle.backPtrOk (h : SignalHandle) : Bool :=
  match h.resource with
  | some r => r.data == some h.hid
  | none => true

/-- Supporting lemma: a successful init establishes the back-pointer of the
handle it is called on; a rejected init leaves the invariant as it was. -/
theorem backPtrOk_init (h : SignalHandle) (hb : h.backPtrOk = true) :
    (h.init).1.backPtrOk = true := by
  cases h with
  | mk hid st res ls =>
      cases st <;>
        simp_all [SignalHandle.init, SignalHandle.backPtrOk]

/-- Supporting lemma: start preserves the back-pointer invariant. -/
theorem backPtrOk_start (h : SignalHandle) (s : Int) (hb : h.backPtrOk = true) :
    (h.start s).1.backPtrOk = true := by
  cases h with
  | mk hid st res ls =>
      cases res <;> simp_all [SignalHandle.start, SignalHandle.backPtrOk]

/-- Supporting lemma: stop preserves the back-pointer invariant. -/
theorem backPtrOk_stop (h : SignalHandle) (hb : h.backPtrOk = true) :
    (h.stop).1.backPtrOk = true := by
  cases hres : h.resource with
  | none => simpa [SignalHandle.stop, hres] using hb
  | some r =>
      have hd : r.data = some h.hid := by
        have hb2 := hb
        unfold SignalHandle.backPtrOk at hb2
        rw [hres] at hb2
        simpa using hb2
      by_cases hst : h.state = .active <;>
        simp [SignalHandle.stop, SignalHandle.backPtrOk, hres, hst, hd]

/-- C9: a SignalEvent is an immutable value: an event constructed with
payload s has signal equal to s, and every event is fully determined by its
payload, so it carries no further state and in particular no reference to any
handle. -/
theorem signalEvent_immutable_value (s : Int) :
    (SignalEvent.mk s).signal = s ∧ ∀ e : SignalEvent, SignalEvent.mk e.signal = e := by
  refine ⟨rfl, ?_⟩
  intro e
  cases e
  rfl

/-- C10: signal is a pure query: the state passing form of the const method
returns the receiver with lifecycle state, native resource (armed signal
number and back-pointer included) and listener registry unchanged. -/
theorem signal_pure_query (h : SignalHandle) :
    (h.signalOp).2.state = h.state ∧ (h.signalOp).2.resource = h.resource ∧
      (h.signalOp).2.listeners = h.listeners :=
  ⟨rfl, rfl, rfl⟩

/-- C5: on a fresh handle init succeeds; the immediately following second
init returns failure and leaves the handle completely unchanged, and the
native resource remains allocated exactly once. -/
theorem init_twice_fails (h : SignalHandle) (hst : h.state = .uninitialized) :
    (h.init).2 = true ∧ (h.init).1.init = ((h.init).1, false) ∧
      (h.init).1.resource.isSome = true := by
  refine ⟨?_, ?_, ?_⟩ <;> simp [SignalHandle.init, hst]

/-- Witness for C5 at a concrete fresh handle. -/
theorem init_twice_fails_witness :
    ((SignalHandle.create 7).init).2 = true ∧
      ((SignalHandle.create 7).init).1.init = (((SignalHandle.create 7).init).1, false) ∧
      ((SignalHandle.create 7).init).1.resource.isSome = true :=
  init_twice_fails (SignalHandle.create 7) rfl

/-- C6 counterexample: on a CLOSED handle stop reports a usage error and the
state stays CLOSED, so the claim that stop twice in a row produces no error
and leaves every handle in state STOPPED fails on closed handles. -/
theorem stop_idempotent_counterexample :
    ((((SignalHandle.create 0).init).1.close).1.stop).2 = some UvwError.usage ∧
      ((((SignalHandle.create 0).init).1.close).1.stop).1.state = HandleState.closed :=
  ⟨rfl, rfl⟩

/-- C6 amended: on a handle that is ACTIVE or already STOPPED, stop is
idempotent: the first stop reports no error and leaves state STOPPED, and the
second stop returns the very same handle again with no error. -/
theorem stop_idempotent (h : SignalHandle)
    (hst : h.state = .active ∨ h.state = .stopped) (hinv : h.inv = true) :
    (h.stop).2 = none ∧ (h.stop).1.state = .stopped ∧
      (h.stop).1.stop = ((h.stop).1, none) := by
  have hA : allocatedIn h.state = true := by
    rcases hst with hst | hst <;> rw [hst] <;> rfl
  have hres : ∃ r, h.resource = some r := by
    have hinv2 := hinv
    unfold SignalHandle.inv at hinv2
    rw [hA] at hinv2
    exact Option.isSome_iff_exists.mp (by simpa using hinv2)
  obtain ⟨r, hr⟩ := hres
  rcases hst with hst | hst <;>
    refine ⟨?_, ?_, ?_⟩ <;>
      simp [SignalHandle.stop, hr, hst]

/-- Witness for the amended C6 at a concrete armed handle. -/
theorem stop_idempotent_witness :
    ((((SignalHandle.create 0).init).1.start 9).1.stop).2 = none ∧
      ((((SignalHandle.create 0).init).1.start 9).1.stop).1.state = .stopped ∧
      ((((SignalHandle.create 0).init).1.start 9).1.stop).1.stop =
        (((((SignalHandle.create 0).init).1.start 9).1.stop).1, none) :=
  stop_idempotent (((SignalHandle.create 0).init).1.start 9).1 (Or.inl rfl) (by decide)

/-- C8: on a handle with an empty registry, subscribing listeners l1, l2, l3
in that order and publishing one event runs exactly l1, l2, l3 in that order,
each receiving that event; the complete record of invocations is returned by
publish, so all of them finish before the call returns. -/
theorem publish_in_subscription_order (h : SignalHandle) (l1 l2 l3 : ListenerId)
    (e : SignalEvent) (hl : h.listeners = []) :
    (((h.on l1).on l2).on l3).publish e = [⟨l1, e⟩, ⟨l2, e⟩, ⟨l3, e⟩] := by
  simp [SignalHandle.on, SignalHandle.publish, hl]

/-- Witness for C8 at a concrete handle and three concrete listeners. -/
theorem publish_in_subscription_order_witness :
    ((((SignalHandle.create 0).on 1).on 2).on 3).publish ⟨15⟩ =
      [⟨1, ⟨15⟩⟩, ⟨2, ⟨15⟩⟩, ⟨3, ⟨15⟩⟩] :=
  publish_in_subscription_order (SignalHandle.create 0) 1 2 3 ⟨15⟩ rfl

/-- C2: on a handle before a successful init or after CLOSED, under the
allocation invariant, each domain operation start, stop, signal reports a
usage error to the caller and leaves the handle unchanged; behavior is
defined in every case. -/
theorem ops_usage_error_outside_window (h : SignalHandle) (s : Int)
    (hst : h.state = .uninitialized ∨ h.state = .closed) (hinv : h.inv = true) :
    h.start s = (h, some .usage) ∧ h.stop = (h, some .usage) ∧
      h.signal = .error .usage := by
  have hA : allocatedIn h.state = false := by
    rcases hst with hst | hst <;> rw [hst] <;> rfl
  have hres : h.resource = none := by
    have hinv2 := hinv
    unfold SignalHandle.inv at hinv2
    rw [hA] at hinv2
    cases hr : h.resource with
    | none => rfl
    | some r => rw [hr] at hinv2; simp at hinv2
  refine ⟨?_, ?_, ?_⟩ <;>
    simp [SignalHandle.start, SignalHandle.stop, SignalHandle.signal,
      SignalHandle.getResource, Except.map, hres]

/-- Witness for C2 at a concrete handle that was never initialized. -/
theorem ops_usage_error_outside_window_witness :
    (SignalHandle.create 0).start 1 = (SignalHandle.create 0, some .usage) ∧
      (SignalHandle.create 0).stop = (SignalHandle.create 0, some .usage) ∧
      (SignalHandle.create 0).signal = .error .usage :=
  ops_usage_error_outside_window (SignalHandle.create 0) 1 (Or.inl rfl) (by decide)

/-- C3: on an initialized handle (any state of the allocation window), start
s1 then start s2 with no intervening stop reports no error on either call,
leaves the handle ACTIVE, and signal then returns s2: the last start wins. -/
theorem start_start_last_wins (h : SignalHandle) (s1 s2 : Int)
    (hst : allocatedIn h.state = true) (hinv : h.inv = true) :
    (h.start s1).2 = none ∧ ((h.start s1).1.start s2).2 = none ∧
      ((h.start s1).1.start s2).1.state = .active ∧
      ((h.start s1).1.start s2).1.signal = .ok s2 := by
  have hres : ∃ r, h.resource = some r := by
    have hinv2 := hinv
    unfold SignalHandle.inv at hinv2
    rw [hst] at hinv2
    exact Option.isSome_iff_exists.mp (by simpa using hinv2)
  obtain ⟨r, hr⟩ := hres
  refine ⟨?_, ?_, ?_, ?_⟩ <;>
    simp [SignalHandle.start, SignalHandle.signal, SignalHandle.getResource,
      Except.map, hr]

/-- Witness for C3 at a concrete initialized handle. -/
theorem start_start_last_wins_witness :
    (((SignalHandle.create 0).init).1.start 1).2 = none ∧
      ((((SignalHandle.create 0).init).1.start 1).1.start 2).2 = none ∧
      ((((SignalHandle.create 0).init).1.start 1).1.start 2).1.state = .active ∧
      ((((SignalHandle.create 0).init).1.start 1).1.start 2).1.signal = .ok 2 :=
  start_start_last_wins ((SignalHandle.create 0).init).1 1 2 rfl (by decide)

/-- C7: after start s on a handle whose resource is allocated, signal returns
s, and after a subsequent stop the handle is STOPPED while signal still
returns s: the last armed identifier stays valid while STOPPED. -/
theorem signal_reflects_last_start (h : SignalHandle) (s : Int)
    (hr : h.resource.isSome = true) :
    ((h.start s).1).signal = .ok s ∧
      ((h.start s).1.stop).1.state = .stopped ∧
      ((h.start s).1.stop).1.signal = .ok s := by
  obtain ⟨r, hres⟩ := Option.isSome_iff_exists.mp hr
  refine ⟨?_, ?_, ?_⟩ <;>
    simp [SignalHandle.start, SignalHandle.stop, SignalHandle.signal,
      SignalHandle.getResource, Except.map, hres]

/-- Witness for C7 at a concrete initialized handle armed with 15. -/
theorem signal_reflects_last_start_witness :
    ((((SignalHandle.create 0).init).1.start 15).1).signal = .ok 15 ∧
      ((((SignalHandle.create 0).init).1.start 15).1.stop).1.state = .stopped ∧
      ((((SignalHandle.create 0).init).1.start 15).1.stop).1.signal = .ok 15 :=
  signal_reflects_last_start ((SignalHandle.create 0).init).1 15 rfl

/-- C1: when the native callback fires with resource r and raw signal s, and
the back-pointer in r.data addresses the owning handle in the world, the
bridge recovers that owner, constructs one SignalEvent with payload s and
publishes it once to each currently subscribed listener of the owner, in
subscription order. -/
theorem startCallback_bridges_once (w : World) (r : NativeSignal) (s : Int)
    (owner : SignalHandle) (i : Nat)
    (hdata : r.data = some i) (howner : w.get? i = some owner) :
    startCallback w r s = owner.listeners.map (fun l => Invocation.mk l (SignalEvent.mk s)) ∧
      (startCallback w r s).length = owner.listeners.length ∧
      ∀ iv ∈ startCallback w r s, iv.event.signal = s := by
  have hrec : recoverOwner w r = some owner := by
    unfold recoverOwner
    rw [hdata]
    simpa using howner
  have hmain : startCallback w r s =
      owner.listeners.map (fun l => Invocation.mk l (SignalEvent.mk s)) := by
    simp [startCallback, hrec, SignalHandle.publish]
  refine ⟨hmain, ?_, ?_⟩
  · rw [hmain]
    simp
  · intro iv hiv
    rw [hmain] at hiv
    simp [List.mem_map] at hiv
    obtain ⟨l, _, hl⟩ := hiv
    rw [← hl]
    rfl

/-- Witness for C1 on a one handle world with two subscribed listeners. -/
theorem startCallback_bridges_once_witness :
    startCallback [⟨0, .active, some ⟨15, some 0⟩, [1, 2]⟩] ⟨15, some 0⟩ 15 =
      [⟨1, ⟨15⟩⟩, ⟨2, ⟨15⟩⟩] := by
  have h := startCallback_bridges_once [⟨0, .active, some ⟨15, some 0⟩, [1, 2]⟩]
    ⟨15, some 0⟩ 15 ⟨0, .active, some ⟨15, some 0⟩, [1, 2]⟩ 0 rfl rfl
  rw [h.1]
  rfl

/-- C4: two handle instances at distinct addresses, each satisfying the
back-pointer invariant with an allocated resource, never share a
back-pointer, and the bridge dereferencing the resource of the first
recovers that very handle, which is never the other handle. -/
theorem backPtr_never_aliased (w : World) (a b : SignalHandle)
    (ra rb : NativeSignal) (i j : Nat) (hij : i ≠ j)
    (hwa : w.get? i = some a) (hai : a.hid = i) (hbj : b.hid = j)
    (hra : a.resource = some ra) (hrb : b.resource = some rb)
    (hba : a.backPtrOk = true) (hbb : b.backPtrOk = true) :
    ra.data ≠ rb.data ∧ recoverOwner w ra = some a ∧ a ≠ b := by
  have hda : ra.data = some i := by
    have h2 := hba
    unfold SignalHandle.backPtrOk at h2
    rw [hra, hai] at h2
    simpa using h2
  have hdb : rb.data = some j := by
    have h2 := hbb
    unfold SignalHandle.backPtrOk at h2
    rw [hrb, hbj] at h2
    simpa using h2
  refine ⟨?_, ?_, ?_⟩
  · rw [hda, hdb]
    intro hc
    exact hij (Option.some_injective _ hc)
  · unfold recoverOwner
    rw [hda]
    simpa using hwa
  · intro hab
    rw [hab, hbj] at hai
    exact hij hai.symm

/-- Witness for C4 on a two handle world. -/
theorem backPtr_never_aliased_witness :
    (NativeSignal.mk 0 (some 0)).data ≠ (NativeSignal.mk 0 (some 1)).data ∧
      recoverOwner [⟨0, .initialized, some ⟨0, some 0⟩, []⟩,
          ⟨1, .initialized, some ⟨0, some 1⟩, []⟩] ⟨0, some 0⟩ =
        some ⟨0, .initialized, some ⟨0, some 0⟩, []⟩ ∧
      (SignalHandle.mk 0 .initialized (some ⟨0, some 0⟩) []) ≠
        (SignalHandle.mk 1 .initialized (some ⟨0, some 1⟩) []) :=
  backPtr_never_aliased
    [⟨0, .initialized, some ⟨0, some 0⟩, []⟩, ⟨1, .initialized, some ⟨0, some 1⟩, []⟩]
    ⟨0, .initialized, some ⟨0, some 0⟩, []⟩ ⟨1, .initialized, some ⟨0, some 1⟩, []⟩
    ⟨0, some 0⟩ ⟨0, some 1⟩ 0 1 (by decide) rfl rfl rfl rfl rfl (by decide) (by decide)

end Uvw
